import Mathlib

/-!
Shallow embedding of the Slack notification provider
(`server/notification-providers/slack.js`): configuration validation,
timezone-to-region resolution, and local-time formatting.

JavaScript `null`/absent string fields are modelled as `Option String`
(`none` = absent/null); a field is falsy exactly when it is absent or the
empty string.  Throwing is modelled with `Except`; in-place mutation of the
notification object is modelled by returning the final state of the object
alongside the outcome.  Log emission to the console is modelled as the list
of `(level, message)` events actually printed.
-/

namespace Slack

/-- Embedding of the global `logLevelsEnabled` configuration object. -/
structure LogLevelsConfig where
  debug : Bool
  info : Bool
  warn : Bool
  error : Bool
  compactLogs : Bool
deriving Repr, DecidableEq

/-- The constant configuration from the source: debug off, the rest on. -/
def logLevelsEnabled : LogLevelsConfig :=
  { debug := false
    info := true
    warn := true
    error := true
    compactLogs := true }

/-- Embedding of `completeLogDebug`: it calls `logMessage` (which prints one
line to the console) only when the `debug` level is enabled; the printed event
is recorded as a `(level, message)` pair. -/
def completeLogDebug (message : String) : List (String × String) :=
  if logLevelsEnabled.debug then [("DEBUG", message)] else []

/-- Embedding of `completeLogWarn`: prints only when the `warn` level is
enabled. -/
def completeLogWarn (message : String) : List (String × String) :=
  if logLevelsEnabled.warn then [("WARN", message)] else []

/-- Embedding of `completeLogError`: prints only when the `error` level is
enabled. -/
def completeLogError (message : String) : List (String × String) :=
  if logLevelsEnabled.error then [("ERROR", message)] else []

/-- A JavaScript string field is truthy exactly when it is present and
non-empty (`!notification[field]` is the negation of this). -/
def truthyStr (v : Option String) : Bool :=
  match v with
  | none => false
  | some s => !s.isEmpty

/-- The Slack notification configuration object: the three required string
fields plus the optional icon emoji, as described by the provider. -/
structure NotificationConfig where
  slackwebhookURL : Option String
  slackchannel : Option String
  slackusername : Option String
  slackiconemo : Option String
deriving Repr, DecidableEq

/-- The `requiredFields` array from `validateNotificationConfig`: field name
paired with the error message thrown when it is missing, in source order. -/
def requiredFields : List (String × String) :=
  [("slackwebhookURL", "Slack webhook URL is required for notifications."),
   ("slackchannel", "Slack channel is required for notifications."),
   ("slackusername", "Slack username is required for notifications.")]

/-- Dynamic property access `notification[field]` for the fields the
validator reads. -/
def getField (n : NotificationConfig) (f : String) : Option String :=
  if f = "slackwebhookURL" then n.slackwebhookURL
  else if f = "slackchannel" then n.slackchannel
  else if f = "slackusername" then n.slackusername
  else if f = "slackiconemo" then n.slackiconemo
  else none

/-- The `requiredFields.forEach` loop: for each `(field, message)` in order,
throw `message` as soon as `notification[field]` is falsy. -/
def checkRequiredFields (n : NotificationConfig) :
    List (String × String) → Except String Unit
  | [] => Except.ok ()
  | (f, m) :: rest =>
    if truthyStr (getField n f) then checkRequiredFields n rest
    else Except.error m

/-- Embedding of `Slack.validateNotificationConfig`.  The JS method mutates
`notification` in place and throws on a missing required field; here the
first component is the outcome (`.error m` = the thrown message) and the
second is the state of the notification object after the call.  The only
write the source performs is `notification.slackiconemo = ":robot_face:"`,
and it happens only after every required-field check has passed and only
when the icon field is falsy. -/
def validateNotificationConfig (n : NotificationConfig) :
    Except String Unit × NotificationConfig :=
  match checkRequiredFields n requiredFields with
  | Except.error m => (Except.error m, n)
  | Except.ok () =>
    if truthyStr n.slackiconemo then (Except.ok (), n)
    else (Except.ok (), { n with slackiconemo := some ":robot_face:" })

end Slack

namespace Slack

/-- The static `timezoneToInfo` lookup table from
`getAllInformationFromTimezone`, in source order: IANA timezone identifier
mapped to its `[continent, country, local timezone name]` array. -/
def timezoneToInfo : List (String × List String) := [
  ("Europe/Amsterdam", ["Europe", "Netherlands", "Central European Time"]),
  ("Europe/Andorra", ["Europe", "Andorra", "Central European Time"]),
  ("Europe/Belgrade", ["Europe", "Serbia", "Central European Time"]),
  ("Europe/Berlin", ["Europe", "Germany", "Central European Time"]),
  ("Europe/Brussels", ["Europe", "Belgium", "Central European Time"]),
  ("Europe/Bucharest", ["Europe", "Romania", "Eastern European Time"]),
  ("Europe/Budapest", ["Europe", "Hungary", "Central European Time"]),
  ("Europe/Chisinau", ["Europe", "Moldova", "Eastern European Time"]),
  ("Europe/Copenhagen", ["Europe", "Denmark", "Central European Time"]),
  ("Europe/Dublin", ["Europe", "Ireland", "Greenwich Mean Time"]),
  ("Europe/Helsinki", ["Europe", "Finland", "Eastern European Time"]),
  ("Europe/Istanbul", ["Europe", "Turkey", "Turkey Time"]),
  ("Europe/Kiev", ["Europe", "Ukraine", "Eastern European Time"]),
  ("Europe/Lisbon", ["Europe", "Portugal", "Western European Time"]),
  ("Europe/London", ["Europe", "United Kingdom", "Greenwich Mean Time"]),
  ("Europe/Luxembourg", ["Europe", "Luxembourg", "Central European Time"]),
  ("Europe/Madrid", ["Europe", "Spain", "Central European Time"]),
  ("Europe/Minsk", ["Europe", "Belarus", "Minsk Time"]),
  ("Europe/Monaco", ["Europe", "Monaco", "Central European Time"]),
  ("Europe/Moscow", ["Europe", "Russia", "Moscow Time"]),
  ("Europe/Oslo", ["Europe", "Norway", "Central European Time"]),
  ("Europe/Paris", ["Europe", "France", "Central European Time"]),
  ("Europe/Prague", ["Europe", "Czech Republic", "Central European Time"]),
  ("Europe/Riga", ["Europe", "Latvia", "Eastern European Time"]),
  ("Europe/Rome", ["Europe", "Italy", "Central European Time"]),
  ("Europe/Samara", ["Europe", "Russia", "Samara Time"]),
  ("Europe/Sofia", ["Europe", "Bulgaria", "Eastern European Time"]),
  ("Europe/Stockholm", ["Europe", "Sweden", "Central European Time"]),
  ("Europe/Tallinn", ["Europe", "Estonia", "Eastern European Time"]),
  ("Europe/Tirane", ["Europe", "Albania", "Central European Time"]),
  ("Europe/Vaduz", ["Europe", "Liechtenstein", "Central European Time"]),
  ("Europe/Vienna", ["Europe", "Austria", "Central European Time"]),
  ("Europe/Vilnius", ["Europe", "Lithuania", "Eastern European Time"]),
  ("Europe/Zurich", ["Europe", "Switzerland", "Central European Time"]),
  ("America/Chicago", ["North America", "United States", "Central Standard Time"]),
  ("America/Denver", ["North America", "United States", "Mountain Standard Time"]),
  ("America/Detroit", ["North America", "United States", "Eastern Standard Time"]),
  ("America/Houston", ["North America", "United States", "Central Standard Time"]),
  ("America/Indianapolis", ["North America", "United States", "Eastern Standard Time"]),
  ("America/Los_Angeles", ["North America", "United States", "Pacific Standard Time"]),
  ("America/Mexico_City", ["North America", "Mexico", "Central Standard Time"]),
  ("America/New_York", ["North America", "United States", "Eastern Standard Time"]),
  ("America/Regina", ["North America", "Canada", "Central Standard Time"]),
  ("America/Toronto", ["North America", "Canada", "Eastern Standard Time"]),
  ("America/Vancouver", ["North America", "Canada", "Pacific Standard Time"]),
  ("America/Winnipeg", ["North America", "Canada", "Central Standard Time"]),
  ("America/Argentina/Buenos_Aires", ["South America", "Argentina", "Argentina Time"]),
  ("America/Asuncion", ["South America", "Paraguay", "Paraguay Time"]),
  ("America/Bahia", ["South America", "Brazil", "Brasilia Time"]),
  ("America/Barbados", ["South America", "Barbados", "Atlantic Standard Time"]),
  ("America/Belize", ["South America", "Belize", "Central Standard Time"]),
  ("America/Colombia", ["South America", "Colombia", "Colombia Time"]),
  ("America/Curacao", ["South America", "Curacao", "Atlantic Standard Time"]),
  ("America/Guatemala", ["South America", "Guatemala", "Central Standard Time"]),
  ("America/Guayaquil", ["South America", "Ecuador", "Ecuador Time"]),
  ("America/Lima", ["South America", "Peru", "Peru Time"]),
  ("America/Panama", ["South America", "Panama", "Eastern Standard Time"]),
  ("America/Port_of_Spain", ["South America", "Trinidad and Tobago", "Atlantic Standard Time"]),
  ("America/Santiago", ["South America", "Chile", "Chile Standard Time"]),
  ("America/Sao_Paulo", ["South America", "Brazil", "Brasilia Time"]),
  ("Asia/Amman", ["Asia", "Jordan", "Jordan Time"]),
  ("Asia/Baghdad", ["Asia", "Iraq", "Arabian Standard Time"]),
  ("Asia/Bahrain", ["Asia", "Bahrain", "Arabian Standard Time"]),
  ("Asia/Bangkok", ["Asia", "Thailand", "Indochina Time"]),
  ("Asia/Beirut", ["Asia", "Lebanon", "Eastern European Time"]),
  ("Asia/Dhaka", ["Asia", "Bangladesh", "Bangladesh Standard Time"]),
  ("Asia/Dubai", ["Asia", "UAE", "Gulf Standard Time"]),
  ("Asia/Hong_Kong", ["Asia", "Hong Kong", "Hong Kong Time"]),
  ("Asia/Irkutsk", ["Asia", "Russia", "Irkutsk Time"]),
  ("Asia/Jakarta", ["Asia", "Indonesia", "Western Indonesia Time"]),
  ("Asia/Kolkata", ["Asia", "India", "Indian Standard Time"]),
  ("Asia/Kuala_Lumpur", ["Asia", "Malaysia", "Malaysia Time"]),
  ("Asia/Kuwait", ["Asia", "Kuwait", "Arabian Standard Time"]),
  ("Asia/Makassar", ["Asia", "Indonesia", "Central Indonesia Time"]),
  ("Asia/Manila", ["Asia", "Philippines", "Philippine Time"]),
  ("Asia/Muscat", ["Asia", "Oman", "Gulf Standard Time"]),
  ("Asia/Novosibirsk", ["Asia", "Russia", "Novosibirsk Time"]),
  ("Asia/Seoul", ["Asia", "South Korea", "Korea Standard Time"]),
  ("Asia/Singapore", ["Asia", "Singapore", "Singapore Time"]),
  ("Asia/Taipei", ["Asia", "Taiwan", "Taipei Standard Time"]),
  ("Asia/Tashkent", ["Asia", "Uzbekistan", "Uzbekistan Time"]),
  ("Asia/Tokyo", ["Asia", "Japan", "Japan Standard Time"]),
  ("Asia/Ulaanbaatar", ["Asia", "Mongolia", "Ulaanbaatar Time"]),
  ("Asia/Yangon", ["Asia", "Myanmar", "Myanmar Time"]),
  ("Australia/Adelaide", ["Australia", "Australia", "Australian Central Standard Time"]),
  ("Australia/Brisbane", ["Australia", "Australia", "Australian Eastern Standard Time"]),
  ("Australia/Darwin", ["Australia", "Australia", "Australian Central Standard Time"]),
  ("Australia/Hobart", ["Australia", "Australia", "Australian Eastern Daylight Time"]),
  ("Australia/Melbourne", ["Australia", "Australia", "Australian Eastern Daylight Time"]),
  ("Australia/Sydney", ["Australia", "Australia", "Australian Eastern Daylight Time"]),
  ("Africa/Addis_Ababa", ["Africa", "Ethiopia", "East Africa Time"]),
  ("Africa/Cairo", ["Africa", "Egypt", "Eastern European Time"]),
  ("Africa/Casablanca", ["Africa", "Morocco", "Western European Time"]),
  ("Africa/Harare", ["Africa", "Zimbabwe", "Central Africa Time"]),
  ("Africa/Johannesburg", ["Africa", "South Africa", "South Africa Standard Time"]),
  ("Africa/Khartoum", ["Africa", "Sudan", "Central Africa Time"]),
  ("Africa/Lagos", ["Africa", "Nigeria", "West Africa Time"]),
  ("Africa/Nairobi", ["Africa", "Kenya", "East Africa Time"]),
  ("Africa/Tripoli", ["Africa", "Libya", "Eastern European Time"]),
  ("Asia/Tehran", ["Asia", "Iran", "Iran Standard Time"]),
  ("Asia/Qatar", ["Asia", "Qatar", "Arabian Standard Time"]),
  ("Asia/Jerusalem", ["Asia", "Israel", "Israel Standard Time"]),
  ("Asia/Riyadh", ["Asia", "Saudi Arabia", "Arabian Standard Time"]),
  ("Pacific/Auckland", ["Pacific", "New Zealand", "New Zealand Standard Time"]),
  ("Pacific/Fiji", ["Pacific", "Fiji", "Fiji Time"]),
  ("Pacific/Guam", ["Pacific", "Guam", "Chamorro Standard Time"]),
  ("Pacific/Honolulu", ["Pacific", "Hawaii", "Hawaii-Aleutian Standard Time"]),
  ("Pacific/Pago_Pago", ["Pacific", "American Samoa", "Samoa Standard Time"]),
  ("Pacific/Port_Moresby", ["Pacific", "Papua New Guinea", "Papua New Guinea Time"]),
  ("Pacific/Suva", ["Pacific", "Fiji", "Fiji Time"]),
  ("Pacific/Tarawa", ["Pacific", "Kiribati", "Gilbert Island Time"]),
  ("Pacific/Wellington", ["Pacific", "New Zealand", "New Zealand Standard Time"]),
  ("Antarctica/Palmer", ["Other", "Antarctica", "Chile Summer Time"]),
  ("Antarctica/Vostok", ["Other", "Antarctica", "Vostok Time"]),
  ("Indian/Chagos", ["Other", "British Indian Ocean Territory", "Indian Ocean Territory Time"]),
  ("Indian/Mauritius", ["Other", "Mauritius", "Mauritius Time"]),
  ("Indian/Reunion", ["Other", "Réunion", "Réunion Time"]),
  ("Indian/Christmas", ["Other", "Australia", "Australia Western Standard Time"]),
  ("Indian/Kerguelen", ["Other", "France", "French Southern and Antarctic Time"]),
  ("Indian/Maldives", ["Other", "Maldives", "Maldives Time"]),
  ("Indian/Seychelles", ["Other", "Seychelles", "Seychelles Time"])
]

/-- JavaScript property lookup `timezoneToInfo[timezone]`: the value of the
first entry whose key equals the given string, or `none` when no key
matches. -/
def lookupTz (key : String) : List (String × List String) → Option (List String)
  | [] => none
  | e :: rest => if key = e.1 then some e.2 else lookupTz key rest

/-- Result record of `getAllInformationFromTimezone`; each field is `none`
when the JS value is `null`. -/
structure TimezoneInfo where
  continent : Option String
  country : Option String
  localTimezone : Option String
deriving Repr, DecidableEq

/-- Embedding of `Slack.getAllInformationFromTimezone`: the destructuring
`const [continent = null, country = null, localTimezone = null] =
timezoneToInfo[timezone] ?? []` takes the first three components of the
looked-up array, each defaulting to `null` when absent. -/
def getAllInformationFromTimezone (timezone : String) : TimezoneInfo :=
  let arr := (lookupTz timezone timezoneToInfo).getD []
  { continent := arr.get? 0
    country := arr.get? 1
    localTimezone := arr.get? 2 }

/-- The guard of the `Timezone not found in mappings` warning in
`getAllInformationFromTimezone`: `continent === "Unknown" &&
logLevelsEnabled.warn`. -/
def timezoneNotFoundWarning (timezone : String) : Bool :=
  ((getAllInformationFromTimezone timezone).continent == some "Unknown")
    && logLevelsEnabled.warn

end Slack

namespace Slack

/-- Modelled from the spec: the date/time library (dayjs with the utc and
timezone plugins) is an external collaborator, not part of this repository.
Month abbreviations for the dayjs `MMM` format token. -/
def monthAbbrev (m : Nat) : String :=
  match m with
  | 1 => "Jan" | 2 => "Feb" | 3 => "Mar" | 4 => "Apr"
  | 5 => "May" | 6 => "Jun" | 7 => "Jul" | 8 => "Aug"
  | 9 => "Sep" | 10 => "Oct" | 11 => "Nov" | 12 => "Dec"
  | _ => ""

/-- Modelled from the spec: full weekday names for the dayjs `dddd` format
token, indexed from Sunday. -/
def weekdayName (w : Nat) : String :=
  match w with
  | 0 => "Sunday" | 1 => "Monday" | 2 => "Tuesday" | 3 => "Wednesday"
  | 4 => "Thursday" | 5 => "Friday" | 6 => "Saturday"
  | _ => ""

/-- Decimal digits of a natural number (fuel-bounded recursion). -/
def natDigitsAux : Nat → Nat → List Char
  | 0, _ => []
  | fuel + 1, n =>
    if n < 10 then [Char.ofNat (48 + n)]
    else natDigitsAux fuel (n / 10) ++ [Char.ofNat (48 + n % 10)]

/-- Decimal string of a natural number. -/
def natToStr (n : Nat) : String :=
  String.mk (natDigitsAux (n + 1) n)

/-- Two-digit zero-padded decimal string (dayjs `DD`, `HH`, `mm`, `ss`). -/
def pad2 (n : Nat) : String :=
  if n < 10 then "0" ++ natToStr n else natToStr n

/-- Modelled from the spec: days from the Unix epoch of a proleptic
Gregorian calendar date (the civil-from-days conversion used by any
timezone-database-backed date library). -/
def daysFromCivil (y m d : Int) : Int :=
  let y2 := if m ≤ 2 then y - 1 else y
  let era := Int.fdiv y2 400
  let yoe := y2 - era * 400
  let mp := if m > 2 then m - 3 else m + 9
  let doy := Int.fdiv (153 * mp + 2) 5 + d - 1
  let doe := yoe * 365 + Int.fdiv yoe 4 - Int.fdiv yoe 100 + doy
  era * 146097 + doe - 719468

/-- Modelled from the spec: Gregorian calendar date `(year, month, day)` of
a count of days from the Unix epoch; inverse of `daysFromCivil`. -/
def civilFromDays (z0 : Int) : Int × Int × Int :=
  let z := z0 + 719468
  let era := Int.fdiv z 146097
  let doe := z - era * 146097
  let yoe := Int.fdiv
    (doe - Int.fdiv doe 1460 + Int.fdiv doe 36524 - Int.fdiv doe 146096) 365
  let y := yoe + era * 400
  let doy := doe - (365 * yoe + Int.fdiv yoe 4 - Int.fdiv yoe 100)
  let mp := Int.fdiv (5 * doy + 2) 153
  let d := doy - Int.fdiv (153 * mp + 2) 5 + 1
  let m := if mp < 10 then mp + 3 else mp - 9
  (if m ≤ 2 then y + 1 else y, m, d)

/-- Day of week of a days-from-epoch count, `0` = Sunday (1970-01-01 was a
Thursday). -/
def weekdayFromDays (z : Int) : Nat :=
  (Int.emod (z + 4) 7).toNat

/-- Numeric value of a decimal digit character. -/
def digitVal (c : Char) : Option Nat :=
  if c.isDigit then some (c.toNat - 48) else none

/-- Value of two decimal digit characters. -/
def digits2 (a b : Char) : Option Nat :=
  match digitVal a, digitVal b with
  | some x, some y => some (x * 10 + y)
  | _, _ => none

/-- Value of four decimal digit characters. -/
def digits4 (a b c d : Char) : Option Nat :=
  match digits2 a b, digits2 c d with
  | some x, some y => some (x * 100 + y)
  | _, _ => none

/-- Modelled from the spec: parsing of an ISO-8601 UTC instant of the form
`YYYY-MM-DDTHH:mm:ssZ` into `(year, month, day, hour, minute, second)`. -/
def parseISOZulu (s : String) :
    Option (Nat × Nat × Nat × Nat × Nat × Nat) :=
  match s.data with
  | [y1, y2, y3, y4, '-', m1, m2, '-', d1, d2, 'T',
     h1, h2, ':', i1, i2, ':', s1, s2, 'Z'] =>
    match digits4 y1 y2 y3 y4, digits2 m1 m2, digits2 d1 d2,
        digits2 h1 h2, digits2 i1 i2, digits2 s1 s2 with
    | some y, some mo, some d, some h, some mi, some se =>
      some (y, mo, d, h, mi, se)
    | _, _, _, _, _, _ => none
  | _ => none

/-- Seconds from the Unix epoch of a parsed UTC instant. -/
def utcEpochSeconds (s : String) : Option Int :=
  (parseISOZulu s).map fun t =>
    daysFromCivil (Int.ofNat t.1) (Int.ofNat t.2.1) (Int.ofNat t.2.2.1)
        * 86400
      + Int.ofNat t.2.2.2.1 * 3600 + Int.ofNat t.2.2.2.2.1 * 60
      + Int.ofNat t.2.2.2.2.2

/-- Day of the month of the last Sunday of a 31-day month. -/
def lastSundayOfMonth (y m : Int) : Int :=
  31 - Int.ofNat (weekdayFromDays (daysFromCivil y m 31))

/-- Modelled from the spec: whether European Union daylight-saving time is
in effect at UTC epoch second `t` of year `y` (from 01:00 UTC on the last
Sunday of March to 01:00 UTC on the last Sunday of October). -/
def euDstActive (y t : Int) : Bool :=
  let startT := daysFromCivil y 3 (lastSundayOfMonth y 3) * 86400 + 3600
  let endT := daysFromCivil y 10 (lastSundayOfMonth y 10) * 86400 + 3600
  decide (startT ≤ t) && decide (t < endT)

/-- Modelled from the spec: the IANA timezone database's UTC offset in
seconds for the given zone at the given UTC epoch second, for the zones this
provider's spec exercises (Central European Time: UTC+1 in winter, UTC+2
under EU daylight-saving time). -/
def tzOffsetSeconds (tz : String) (t : Int) : Option Int :=
  if tz = "Europe/Amsterdam" ∨ tz = "Europe/Paris" then
    let y := (civilFromDays (Int.fdiv t 86400)).1
    some (if euDstActive y t then 7200 else 3600)
  else none

/-- Modelled from the spec: `dayjs.utc(utcTime).tz(timezone)` — the local
`(daysFromEpoch, secondsOfDay)` of the UTC instant in the given zone, or
`none` when the instant does not parse or the zone is not supported. -/
def localInstant (utcTime tz : String) : Option (Int × Nat) :=
  match utcEpochSeconds utcTime with
  | none => none
  | some t =>
    match tzOffsetSeconds tz t with
    | none => none
    | some off =>
      let l := t + off
      some (Int.fdiv l 86400, (Int.emod l 86400).toNat)

/-- Modelled from the spec: the dayjs `dddd` rendering of the local instant
(`"Invalid Date"` when the conversion fails, as dayjs renders an invalid
parse). -/
def dayjsFormatWeekday (utcTime tz : String) : String :=
  match localInstant utcTime tz with
  | none => "Invalid Date"
  | some l => weekdayName (weekdayFromDays l.1)

/-- Modelled from the spec: the dayjs `MMM DD, YYYY` rendering of the local
instant. -/
def dayjsFormatDate (utcTime tz : String) : String :=
  match localInstant utcTime tz with
  | none => "Invalid Date"
  | some l =>
    match civilFromDays l.1 with
    | (y, m, d) =>
      monthAbbrev m.toNat ++ " " ++ pad2 d.toNat ++ ", " ++ natToStr y.toNat

/-- Modelled from the spec: the dayjs `HH:mm:ss` rendering of the local
instant. -/
def dayjsFormatTime (utcTime tz : String) : String :=
  match localInstant utcTime tz with
  | none => "Invalid Date"
  | some l =>
    pad2 (l.2 / 3600) ++ ":" ++ pad2 (l.2 % 3600 / 60) ++ ":" ++ pad2 (l.2 % 60)

/-- The diagnostic message the three formatting functions log when an input
is missing. -/
def invalidInputMessage : String :=
  "Invalid input: Both utcTime and timezone are required."

/-- Embedding of `Slack.formatDay`: when either argument is falsy, attempt a
debug-level diagnostic (gated on `logLevelsEnabled.error` in the source) and
return `null`; otherwise format the local weekday name.  The second
component is the list of log events actually printed. -/
def formatDay (utcTime timezone : Option String) :
    Option String × List (String × String) :=
  if !truthyStr utcTime || !truthyStr timezone then
    (none,
      if logLevelsEnabled.error then completeLogDebug invalidInputMessage
      else [])
  else
    (some (dayjsFormatWeekday (utcTime.getD "") (timezone.getD "")), [])

/-- Embedding of `Slack.formatDate`: same guard as `formatDay`, formatting
`MMM DD, YYYY` on success. -/
def formatDate (utcTime timezone : Option String) :
    Option String × List (String × String) :=
  if !truthyStr utcTime || !truthyStr timezone then
    (none,
      if logLevelsEnabled.error then completeLogDebug invalidInputMessage
      else [])
  else
    (some (dayjsFormatDate (utcTime.getD "") (timezone.getD "")), [])

/-- Embedding of `Slack.formatTime`: same guard as `formatDay`, formatting
`HH:mm:ss` on success. -/
def formatTime (utcTime timezone : Option String) :
    Option String × List (String × String) :=
  if !truthyStr utcTime || !truthyStr timezone then
    (none,
      if logLevelsEnabled.error then completeLogDebug invalidInputMessage
      else [])
  else
    (some (dayjsFormatTime (utcTime.getD "") (timezone.getD "")), [])

end Slack

namespace Slack

theorem lookupTz_mem {key : String} {v : List String} :
    ∀ {l : List (String × List String)},
      lookupTz key l = some v → v ∈ l.map Prod.snd := by
  intro l
  induction l with
  | nil => intro h; simp [lookupTz] at h
  | cons e rest ih =>
    intro h
    simp only [lookupTz] at h
    split at h
    · simp only [List.map_cons, List.mem_cons]
      exact Or.inl (Option.some.inj h).symm
    · exact List.mem_cons_of_mem _ (ih h)

theorem lookupTz_eq_none_iff {key : String} :
    ∀ {l : List (String × List String)},
      lookupTz key l = none ↔ key ∉ l.map Prod.fst := by
  intro l
  induction l with
  | nil => simp [lookupTz]
  | cons e rest ih =>
    simp only [lookupTz, List.map_cons, List.mem_cons]
    by_cases hk : key = e.1
    · simp [hk]
    · simp [hk, ih]

theorem lookupTz_exists_of_mem {key : String} {l : List (String × List String)}
    (h : key ∈ l.map Prod.fst) : ∃ v, lookupTz key l = some v := by
  cases hv : lookupTz key l with
  | none => exact absurd h (lookupTz_eq_none_iff.mp hv)
  | some v => exact ⟨v, rfl⟩

theorem timezoneToInfo_entry_length : ∀ e ∈ timezoneToInfo, e.2.length = 3 := by
  decide

theorem timezoneToInfo_no_unknown_continent :
    ∀ v ∈ timezoneToInfo.map Prod.snd, v.get? 0 ≠ some "Unknown" := by
  decide

theorem getAll_not_mem_eq (tz : String)
    (h : tz ∉ timezoneToInfo.map Prod.fst) :
    getAllInformationFromTimezone tz = ⟨none, none, none⟩ := by
  have hn : lookupTz tz timezoneToInfo = none := lookupTz_eq_none_iff.mpr h
  unfold getAllInformationFromTimezone
  rw [hn]
  rfl

theorem checkRequiredFields_eq (n : NotificationConfig) :
    checkRequiredFields n requiredFields =
      (if truthyStr n.slackwebhookURL then
        if truthyStr n.slackchannel then
          if truthyStr n.slackusername then Except.ok ()
          else Except.error "Slack username is required for notifications."
        else Except.error "Slack channel is required for notifications."
      else Except.error "Slack webhook URL is required for notifications.") := rfl

end Slack

namespace Slack

/-- C1: for every notification configuration missing at least one of the
three required fields (webhook URL, channel, username; absent or empty
counts as missing), `validateNotificationConfig` throws the error message
naming that field, and when several are missing the first missing field in
the fixed check order (webhook URL, then channel, then username) determines
the message. -/
theorem validateNotificationConfig_fail_fast (n : NotificationConfig)
    (h : truthyStr n.slackwebhookURL = false ∨ truthyStr n.slackchannel = false
      ∨ truthyStr n.slackusername = false) :
    (validateNotificationConfig n).1 = Except.error
      (if truthyStr n.slackwebhookURL = false then
        "Slack webhook URL is required for notifications."
      else if truthyStr n.slackchannel = false then
        "Slack channel is required for notifications."
      else "Slack username is required for notifications.") := by
  unfold validateNotificationConfig
  rw [checkRequiredFields_eq]
  cases hb1 : truthyStr n.slackwebhookURL with
  | false => simp [hb1]
  | true =>
    cases hb2 : truthyStr n.slackchannel with
    | false => simp [hb1, hb2]
    | true =>
      cases hb3 : truthyStr n.slackusername with
      | false => simp [hb1, hb2, hb3]
      | true => simp [hb1, hb2, hb3] at h

/-- Witness for C1: the all-empty configuration is rejected with the
webhook-URL message, the first field in check order. -/
theorem validateNotificationConfig_fail_fast_witness :
    (validateNotificationConfig ⟨none, none, none, none⟩).1 =
      Except.error "Slack webhook URL is required for notifications." :=
  validateNotificationConfig_fail_fast ⟨none, none, none, none⟩ (Or.inl rfl)

/-- C4: for every configuration that passes validation, the icon field is
set to the default `":robot_face:"` when it was absent or empty, and left
untouched when a truthy icon was supplied. -/
theorem validateNotificationConfig_icon_default (n : NotificationConfig)
    (h : (validateNotificationConfig n).1 = Except.ok ()) :
    (truthyStr n.slackiconemo = false →
      (validateNotificationConfig n).2.slackiconemo = some ":robot_face:") ∧
    (truthyStr n.slackiconemo = true →
      (validateNotificationConfig n).2.slackiconemo = n.slackiconemo) := by
  unfold validateNotificationConfig at h ⊢
  cases hc : checkRequiredFields n requiredFields with
  | error m => rw [hc] at h; simp at h
  | ok u =>
    cases u
    cases hi : truthyStr n.slackiconemo <;> simp [hi]

/-- Witness for C4: a complete configuration with no icon passes validation
and receives the default icon. -/
theorem validateNotificationConfig_icon_default_witness :
    (validateNotificationConfig
        ⟨some "u", some "c", some "n", none⟩).2.slackiconemo
      = some ":robot_face:" :=
  (validateNotificationConfig_icon_default
    ⟨some "u", some "c", some "n", none⟩ rfl).1 rfl

/-- C8: `validateNotificationConfig` modifies no field of the configuration
object other than the icon field, whether it succeeds or throws: webhook
URL, channel and username are identical before and after the call. -/
theorem validateNotificationConfig_frame (n : NotificationConfig) :
    (validateNotificationConfig n).2.slackwebhookURL = n.slackwebhookURL ∧
    (validateNotificationConfig n).2.slackchannel = n.slackchannel ∧
    (validateNotificationConfig n).2.slackusername = n.slackusername := by
  unfold validateNotificationConfig
  cases hc : checkRequiredFields n requiredFields with
  | error m => exact ⟨rfl, rfl, rfl⟩
  | ok u =>
    cases u
    cases hi : truthyStr n.slackiconemo <;> simp [hi]

/-- C9: validation is atomic on failure: whenever
`validateNotificationConfig` throws, the configuration object is left
completely unchanged; in particular the icon default is not applied, since
every required-field check runs before the icon-defaulting step. -/
theorem validateNotificationConfig_error_unchanged (n : NotificationConfig)
    (e : String) (h : (validateNotificationConfig n).1 = Except.error e) :
    (validateNotificationConfig n).2 = n := by
  unfold validateNotificationConfig at h ⊢
  cases hc : checkRequiredFields n requiredFields with
  | error m => rfl
  | ok u =>
    cases u
    rw [hc] at h
    cases hi : truthyStr n.slackiconemo <;> rw [hi] at h <;> simp at h

/-- Witness for C9: a configuration with every required field missing but a
custom icon set is thrown back untouched. -/
theorem validateNotificationConfig_error_unchanged_witness :
    (validateNotificationConfig ⟨none, none, none, some ":x:"⟩).2
      = ⟨none, none, none, some ":x:"⟩ :=
  validateNotificationConfig_error_unchanged ⟨none, none, none, some ":x:"⟩
    "Slack webhook URL is required for notifications." rfl

end Slack

namespace Slack

/-- C2: every timezone identifier that is not an exact key of the static
lookup table resolves to a record whose continent, country and local
timezone name are all `null`; this is a normal result, not an exception. -/
theorem getAllInformationFromTimezone_unmapped (tz : String)
    (h : tz ∉ timezoneToInfo.map Prod.fst) :
    getAllInformationFromTimezone tz = ⟨none, none, none⟩ :=
  getAll_not_mem_eq tz h

/-- Witness for C2: the identifier `Not/AZone` from the spec is not a key of
the table and resolves to all-null fields. -/
theorem getAllInformationFromTimezone_unmapped_witness :
    getAllInformationFromTimezone "Not/AZone" = ⟨none, none, none⟩ :=
  getAllInformationFromTimezone_unmapped "Not/AZone" (by decide)

/-- C5: the branch of `getAllInformationFromTimezone` comparing the resolved
continent to the literal string `Unknown` is unreachable: for every input
the continent is either a continent name from the table or `null`, never
`Unknown`, so the guarded warning can never be emitted. -/
theorem getAllInformationFromTimezone_never_unknown (tz : String) :
    (getAllInformationFromTimezone tz).continent ≠ some "Unknown" ∧
    timezoneNotFoundWarning tz = false := by
  have hc : (getAllInformationFromTimezone tz).continent ≠ some "Unknown" := by
    unfold getAllInformationFromTimezone
    cases hv : lookupTz tz timezoneToInfo with
    | none => intro hcon; exact Option.noConfusion hcon
    | some v => exact timezoneToInfo_no_unknown_continent v (lookupTz_mem hv)
  refine ⟨hc, ?_⟩
  have hb : ((getAllInformationFromTimezone tz).continent == some "Unknown")
      = false := beq_eq_false_iff_ne.mpr hc
  simp [timezoneNotFoundWarning, hb]

/-- C6: the resolver maps `Europe/Amsterdam` to continent `Europe`, country
`Netherlands` and local timezone name `Central European Time`. -/
theorem getAllInformationFromTimezone_amsterdam :
    getAllInformationFromTimezone "Europe/Amsterdam" =
      ⟨some "Europe", some "Netherlands", some "Central European Time"⟩ := rfl

/-- C10: `getAllInformationFromTimezone` is total (it always returns, never
throws) and all-or-nothing: every entry of the lookup table carries exactly
three string components, and the result's three fields are all present
exactly when the input is a key of the table and all `null` otherwise. -/
theorem getAllInformationFromTimezone_all_or_nothing (tz : String) :
    (∀ e ∈ timezoneToInfo, e.2.length = 3) ∧
    ((tz ∈ timezoneToInfo.map Prod.fst ∧
        (getAllInformationFromTimezone tz).continent.isSome = true ∧
        (getAllInformationFromTimezone tz).country.isSome = true ∧
        (getAllInformationFromTimezone tz).localTimezone.isSome = true) ∨
      (tz ∉ timezoneToInfo.map Prod.fst ∧
        getAllInformationFromTimezone tz = ⟨none, none, none⟩)) := by
  refine ⟨timezoneToInfo_entry_length, ?_⟩
  by_cases h : tz ∈ timezoneToInfo.map Prod.fst
  · left
    obtain ⟨v, hv⟩ := lookupTz_exists_of_mem h
    obtain ⟨e, he, hev⟩ := List.mem_map.mp (lookupTz_mem hv)
    have hlen : v.length = 3 := by
      rw [← hev]; exact timezoneToInfo_entry_length e he
    have hget : ∀ i, i < 3 → (v.get? i).isSome = true := by
      intro i hi
      rw [Option.isSome_iff_ne_none, Ne, List.get?_eq_none]
      omega
    have h0 := hget 0 (by omega)
    have h1 := hget 1 (by omega)
    have h2 := hget 2 (by omega)
    unfold getAllInformationFromTimezone
    rw [hv]
    exact ⟨h, h0, h1, h2⟩
  · right
    exact ⟨h, getAll_not_mem_eq tz h⟩

/-- C7: `formatDate` on the UTC instant `2024-12-31T23:00:00Z` in zone
`Europe/Amsterdam` yields `Jan 01, 2025`: the conversion applies the IANA
offset of the zone at that instant (UTC+1, winter time) to the UTC instant
instead of reading the input as local time, so the date rolls over to
January 1st. -/
theorem formatDate_amsterdam_winter :
    (formatDate (some "2024-12-31T23:00:00Z") (some "Europe/Amsterdam")).1
      = some "Jan 01, 2025" := rfl

/-- C3 evaluation: with a missing UTC-time argument each of the three
formatting functions returns `null` without throwing, but the list of log
events actually printed is empty: the diagnostic is issued through
`completeLogDebug`, which is suppressed because the `debug` level is
disabled in the default configuration (the guard even tests the `error`
level), so no diagnostic log is emitted. -/
theorem format_functions_missing_input_no_log :
    (formatDay none (some "Europe/Paris")).1 = none ∧
    (formatDay none (some "Europe/Paris")).2 = [] ∧
    (formatDate none (some "Europe/Paris")).1 = none ∧
    (formatDate none (some "Europe/Paris")).2 = [] ∧
    (formatTime none (some "Europe/Paris")).1 = none ∧
    (formatTime none (some "Europe/Paris")).2 = [] := by
  refine ⟨rfl, rfl, rfl, rfl, rfl, rfl⟩

end Slack
